import Mathlib

/-!
A shallow embedding of the authentication and workspace-membership logic of
the `fastapi-starter` repository, together with theorems settling the
specification's claims about it.

The embedding covers two parallel module variants present in the source tree:

* `src/app/...` (the current variant): `app/auth/service.py`,
  `app/workspaces/service.py`, `app/workspaces/repository.py`,
  `app/workspaces/schemas.py`, `app/core/security.py`,
  `core/exceptions.py`.  This variant always requires email verification on
  registration (`is_active = False` until `verify_email` succeeds).
* `src/api/v1/...` (the older variant, namespace `Api` below): its
  `services/auth.py` registers accounts with `is_active = True`, i.e. it is
  the "email verification disabled" deployment mode of the spec.

Databases are modelled as in-memory lists threaded through the service
functions; a raised domain exception is an `Except.error` (the per-request
transaction rolls back on any fault, so an error leaves the state
unchanged).  UUIDs are modelled as `Nat`.  JWTs are modelled as records of
their decoded claims (JWT encoding of a fixed claim set is deterministic
and injective, so record equality coincides with token-string equality);
the `valid` field abstracts "signature checks out and the token is not
expired at the moment of use".  bcrypt is modelled as an injective tagging
function with the correct `verify` relation.
-/

namespace FastapiStarter

/-- Domain fault taxonomy from `src/core/exceptions.py`: `NotFoundError`,
`ConflictError`, `ValidationError`, `PermissionDeniedError`, each carrying a
message. -/
inductive DomainError where
  | notFound (msg : String)
  | conflict (msg : String)
  | validation (msg : String)
  | permissionDenied (msg : String)
  deriving DecidableEq

/-- The `type` claim of the two purpose tokens in `app/core/security.py`. -/
inductive TokenPurpose where
  | emailVerification
  | passwordReset
  deriving DecidableEq

/-- A purpose token (JWT) as its decoded claims: `valid` abstracts
"signature valid and not expired at use time", `purpose` is the `type`
claim, `sub` the embedded email. -/
structure PurposeToken where
  valid : Bool
  purpose : TokenPurpose
  sub : String
  deriving DecidableEq

/-- `generate_email_verification_token` from `app/core/security.py`: a JWT
with `type = "email_verification"` and `sub = email`, fresh hence valid. -/
def generate_email_verification_token (email : String) : PurposeToken :=
  { valid := true, purpose := TokenPurpose.emailVerification, sub := email }

/-- `verify_email_verification_token` from `app/core/security.py`: returns
the embedded email iff the signature/expiry check passes and the `type`
claim is `email_verification`; otherwise `none`. -/
def verify_email_verification_token (token : PurposeToken) : Option String :=
  if token.valid ∧ token.purpose = TokenPurpose.emailVerification then
    some token.sub
  else
    none

/-- An access token (JWT) as its decoded claims: `sub` holds the user id
(Python serializes it as `str(user.id)`; the round trip is the identity). -/
structure AccessToken where
  sub : Nat
  deriving DecidableEq

/-- `create_access_token` from `app/core/security.py`, applied as in the
services: `data = {"sub": str(user.id)}`. -/
def create_access_token (sub : Nat) : AccessToken :=
  { sub := sub }

/-- `decode_access_token` restricted to the `sub` claim, as used by
`get_current_user`. -/
def decode_access_token (token : AccessToken) : Nat :=
  token.sub

/-- `get_password_hash` from `app/core/security.py` (bcrypt modelled as an
injective tagging function; the salt is abstracted away). -/
def get_password_hash (password : String) : String :=
  "bcrypt$" ++ password

/-- `verify_password` from `app/core/security.py`: true iff the hash is the
hash of the plaintext. -/
def verify_password (plain hashed : String) : Bool :=
  hashed == get_password_hash plain

/-- A row of the `users` table (`app/users/models.py`).  Timestamps are not
read by any modelled operation and are omitted. -/
structure User where
  id : Nat
  email : String
  firstname : Option String := none
  lastname : Option String := none
  hashed_password : String
  is_active : Bool
  is_superuser : Bool := false
  pending_verification_token : Option PurposeToken := none
  deriving DecidableEq

/-- `UserRepository.get_by_email`: the user row with the given email. -/
def get_by_email (users : List User) (email : String) : Option User :=
  users.find? (fun u => u.email == email)

/-- `BaseRepository.update` on the users table: replace the row with the
given id by its image under `f` (the SQLAlchemy session mutates the mapped
object in place). -/
def update_user_by_id (users : List User) (id : Nat) (f : User → User) : List User :=
  users.map (fun u => if u.id == id then f u else u)

/-- `WorkspaceRole` from `app/workspaces/models.py`. -/
inductive WorkspaceRole where
  | owner
  | admin
  | member
  | viewer
  deriving DecidableEq

/-- A row of the `workspaces` table (`app/workspaces/models.py`);
timestamps omitted (never read by the modelled operations). -/
structure Workspace where
  id : Nat
  name : String
  slug : String
  description : Option String := none
  is_active : Bool := true
  deriving DecidableEq

/-- A row of the `workspace_members` table (`app/workspaces/models.py`):
its attribution column is `added_by_id`.  The repository passes an
`added_by_email` key instead, which `model_validate` silently drops
(extra keys are ignored), so `added_by_id` always keeps its default
`None` in this variant.  Row id and `joined_at` omitted (never read by
the modelled operations). -/
structure Member where
  user_id : Nat
  workspace_id : Nat
  role : WorkspaceRole
  added_by_id : Option Nat := none
  deriving DecidableEq

/-- The database visible to the `app` services, plus the id generator
(`uuid4` modelled as a counter: fresh ids are never reused). -/
structure AppState where
  users : List User
  workspaces : List Workspace
  members : List Member
  nextId : Nat
  deriving DecidableEq

/-- `UserRepository.get_by_id`. -/
def user_get_by_id (users : List User) (id : Nat) : Option User :=
  users.find? (fun u => u.id == id)

/-- `WorkspaceRepository.get_by_id` (via `BaseRepository`). -/
def workspace_get_by_id (workspaces : List Workspace) (id : Nat) : Option Workspace :=
  workspaces.find? (fun w => w.id == id)

/-- `WorkspaceRepository.is_slug_taken` without `exclude_id`: some
workspace row has exactly this slug. -/
def is_slug_taken (workspaces : List Workspace) (slug : String) : Bool :=
  workspaces.any (fun w => w.slug == slug)

/-- `WorkspaceRepository.get_member`: the membership row for the
(workspace, user) pair. -/
def get_member (members : List Member) (workspace_id user_id : Nat) : Option Member :=
  members.find? (fun m => m.workspace_id == workspace_id && m.user_id == user_id)

/-- `WorkspaceRepository.is_user_member`. -/
def is_user_member (members : List Member) (workspace_id user_id : Nat) : Bool :=
  (get_member members workspace_id user_id).isSome

/-- `WorkspaceRepository.get_user_role_in_workspace`. -/
def get_user_role_in_workspace (members : List Member) (workspace_id user_id : Nat) :
    Option WorkspaceRole :=
  (get_member members workspace_id user_id).map (fun m => m.role)

/-- `WorkspaceRepository.add_member`: insert a fresh membership row.  The
`added_by_email` argument mirrors the repository's keyword parameter; the
model has no such field, so `model_validate` drops the key and the stored
row's `added_by_id` stays `None`. -/
def repo_add_member (members : List Member) (workspace_id user_id : Nat)
    (role : WorkspaceRole) (added_by_email : Option String) : List Member :=
  members ++ [{ user_id := user_id, workspace_id := workspace_id, role := role,
                added_by_id := none }]

/-- `WorkspaceRepository.update_member_role`: set the role of the
(workspace, user) membership row if it exists, returning the updated row
(`none` and an unchanged table when there is no such row). -/
def repo_update_member_role (members : List Member) (workspace_id user_id : Nat)
    (role : WorkspaceRole) : Option Member × List Member :=
  match members with
  | [] => (none, [])
  | m :: rest =>
    if m.workspace_id == workspace_id && m.user_id == user_id then
      let m2 := { m with role := role }
      (some m2, m2 :: rest)
    else
      let (found, rest2) := repo_update_member_role rest workspace_id user_id role
      (found, m :: rest2)

/-- `WorkspaceRepository.remove_member`: delete the (workspace, user)
membership row if it exists; returns whether a row was deleted. -/
def repo_remove_member (members : List Member) (workspace_id user_id : Nat) :
    Bool × List Member :=
  match members with
  | [] => (false, [])
  | m :: rest =>
    if m.workspace_id == workspace_id && m.user_id == user_id then
      (true, rest)
    else
      let (removed, rest2) := repo_remove_member rest workspace_id user_id
      (removed, m :: rest2)

/-- `WorkspaceRepository.get_workspace_members_with_users`: inner join of
the workspace's membership rows with the users table on
`member.user_id = user.id`, keeping only rows with `user.is_active`. -/
def get_workspace_members_with_users (st : AppState) (workspace_id : Nat) :
    List (Member × User) :=
  (st.members.filter (fun m => m.workspace_id == workspace_id)).filterMap
    (fun m =>
      (user_get_by_id st.users m.user_id).bind
        (fun u => if u.is_active then some (m, u) else none))

/-- Python `str.lower()` (character-wise, as in CPython for ASCII data),
written over the character list so that it reduces inside the kernel. -/
def str_lower (s : String) : String :=
  String.mk (s.data.map Char.toLower)

/-- Python `s.replace(c, "")` for a single-character pattern: remove every
occurrence of the character. -/
def str_removeAll (s : String) (c : Char) : String :=
  String.mk (s.data.filter (fun x => x ≠ c))

/-- `WorkspaceBase.validate_slug` from `app/workspaces/schemas.py`: accept
iff the slug with hyphens and underscores removed is non-empty and
alphanumeric (Python `str.isalnum`), and return the lower-cased slug.
This validator is dead code in the program: `@classmethod` is applied
above `@field_validator` (schemas.py lines 24-26), an order Pydantic v2
silently ignores, so it is never registered and never runs.  It is
embedded here only to state what the validator would have produced. -/
def validate_slug (v : String) : Except String String :=
  let stripped := str_removeAll (str_removeAll v '-') '_'
  if stripped ≠ "" ∧ stripped.data.all Char.isAlphanum then
    Except.ok (str_lower v)
  else
    Except.error "Slug must contain only letters, numbers, hyphens, and underscores"

/-- `WorkspaceCreate` (`app/workspaces/schemas.py`): its `slug` is the raw
submitted slug.  The `validate_slug` validator is never registered (see
its doc comment), so no format check or lower-casing happens before the
service sees the value. -/
structure WorkspaceCreate where
  name : String
  slug : String
  description : Option String := none
  is_active : Bool := true
  deriving DecidableEq

/-- `WorkspaceMemberCreate` (`app/workspaces/schemas.py`). -/
structure WorkspaceMemberCreate where
  user_id : Nat
  role : WorkspaceRole := WorkspaceRole.member
  deriving DecidableEq

/-- `WorkspaceService.create_workspace` (`app/workspaces/service.py`):
reject with `Conflict` if the submitted slug is taken (an exact,
case-sensitive comparison — the validator that would have lower-cased the
slug never runs); otherwise create the workspace row, storing the slug
as submitted, and add the creator as OWNER member, in one transaction. -/
def create_workspace (st : AppState) (workspace_data : WorkspaceCreate)
    (owner_id : Nat) : Except DomainError (Workspace × AppState) :=
  if is_slug_taken st.workspaces workspace_data.slug then
    Except.error (DomainError.conflict "Workspace slug already taken")
  else
    let workspace : Workspace :=
      { id := st.nextId, name := workspace_data.name, slug := workspace_data.slug,
        description := workspace_data.description,
        is_active := workspace_data.is_active }
    let st2 : AppState :=
      { st with
        workspaces := st.workspaces ++ [workspace],
        members := repo_add_member st.members st.nextId owner_id
          WorkspaceRole.owner none,
        nextId := st.nextId + 1 }
    Except.ok (workspace, st2)

/-- `WorkspaceService.add_member` (`app/workspaces/service.py`): `NotFound`
if workspace or user missing, `Conflict` if already a member; otherwise
insert the membership with the requested role.  The adder's email is
looked up and passed to the repository, which drops it (see
`repo_add_member`). -/
def add_member (st : AppState) (workspace_id : Nat)
    (member_data : WorkspaceMemberCreate) (adder_id : Nat) :
    Except DomainError (Workspace × AppState) :=
  match workspace_get_by_id st.workspaces workspace_id with
  | none => Except.error (DomainError.notFound "Workspace not found")
  | some workspace =>
    match user_get_by_id st.users member_data.user_id with
    | none => Except.error (DomainError.notFound "User not found")
    | some _ =>
      if is_user_member st.members workspace_id member_data.user_id then
        Except.error (DomainError.conflict "User is already a member of this workspace")
      else
        let adder_user := user_get_by_id st.users adder_id
        let st2 : AppState :=
          { st with
            members := repo_add_member st.members workspace_id member_data.user_id
              member_data.role (adder_user.map (fun u => u.email)) }
        Except.ok (workspace, st2)

/-- `WorkspaceService.update_member_role` (`app/workspaces/service.py`):
`Validation` if the target currently holds OWNER and the requested role is
not OWNER; `Validation` if the requested role is ADMIN and the updater is
not the OWNER; otherwise update the membership row (a no-op when the
target is not a member) and return the workspace. -/
def update_member_role (st : AppState) (workspace_id member_user_id : Nat)
    (role : WorkspaceRole) (updater_id : Nat) :
    Except DomainError (Workspace × AppState) :=
  let current_member_role := get_user_role_in_workspace st.members workspace_id member_user_id
  if current_member_role = some WorkspaceRole.owner ∧ role ≠ WorkspaceRole.owner then
    Except.error (DomainError.validation "Cannot change owner role")
  else if role = WorkspaceRole.admin ∧
      get_user_role_in_workspace st.members workspace_id updater_id ≠
        some WorkspaceRole.owner then
    Except.error (DomainError.validation "Only owner can promote members to admin")
  else
    let st2 : AppState :=
      { st with
        members := (repo_update_member_role st.members workspace_id member_user_id role).2 }
    match workspace_get_by_id st2.workspaces workspace_id with
    | none => Except.error (DomainError.notFound "Workspace not found")
    | some workspace => Except.ok (workspace, st2)

/-- `WorkspaceService.remove_member` (`app/workspaces/service.py`):
`Validation` if the target holds OWNER; otherwise delete the membership
row, raising `NotFound` when no row was deleted. -/
def remove_member (st : AppState) (workspace_id member_user_id : Nat) :
    Except DomainError (Unit × AppState) :=
  if get_user_role_in_workspace st.members workspace_id member_user_id =
      some WorkspaceRole.owner then
    Except.error (DomainError.validation "Cannot remove workspace owner")
  else
    let (removed, members2) := repo_remove_member st.members workspace_id member_user_id
    if removed then
      Except.ok ((), { st with members := members2 })
    else
      Except.error (DomainError.notFound "Member not found in workspace")

/-- `MemberUser` (`app/workspaces/schemas.py`). -/
structure MemberUser where
  id : Nat
  firstname : Option String := none
  lastname : Option String := none
  email : String
  deriving DecidableEq

/-- `WorkspaceMember` response schema (`app/workspaces/schemas.py`);
`joined_at` omitted with the timestamps. -/
structure WorkspaceMemberOut where
  role : WorkspaceRole
  user : MemberUser
  deriving DecidableEq

/-- `WorkspaceWithMemberDetails` (`app/workspaces/schemas.py`). -/
structure WorkspaceWithMemberDetails where
  id : Nat
  name : String
  slug : String
  description : Option String := none
  member_count : Nat
  members : List WorkspaceMemberOut
  deriving DecidableEq

/-- `WorkspaceService.get_workspace_with_member_details`
(`app/workspaces/service.py`): `NotFound` if the workspace is missing;
otherwise the workspace with the joined member list and
`member_count = len(members)`. -/
def get_workspace_with_member_details (st : AppState) (workspace_id : Nat) :
    Except DomainError WorkspaceWithMemberDetails :=
  match workspace_get_by_id st.workspaces workspace_id with
  | none => Except.error (DomainError.notFound "Workspace not found")
  | some workspace =>
    let members :=
      (get_workspace_members_with_users st workspace_id).map
        (fun mu =>
          { role := mu.1.role,
            user := { id := mu.2.id, firstname := mu.2.firstname,
                      lastname := mu.2.lastname, email := mu.2.email } :
            WorkspaceMemberOut })
    Except.ok
      { id := workspace.id, name := workspace.name, slug := workspace.slug,
        description := workspace.description,
        member_count := members.length, members := members }

/-- `RegisterRequest` (`app/auth/schemas.py`); the password has already
passed schema strength validation, which none of the claims concern. -/
structure RegisterRequest where
  email : String
  firstname : Option String := none
  lastname : Option String := none
  password : String
  deriving DecidableEq

/-- The user row inserted by `AuthService.register` (`app/auth/service.py`):
`is_active = False` (email verification is always required in this
variant) and the freshly generated verification token stored as
`pending_verification_token`. -/
def registered_user (st : AppState) (user_data : RegisterRequest) : User :=
  { id := st.nextId, email := user_data.email,
    firstname := user_data.firstname, lastname := user_data.lastname,
    hashed_password := get_password_hash user_data.password,
    is_active := false, is_superuser := false,
    pending_verification_token :=
      some (generate_email_verification_token user_data.email) }

/-- `AuthService.register` (`app/auth/service.py`): `Conflict` if the email
is taken; otherwise insert `registered_user`. -/
def register (st : AppState) (user_data : RegisterRequest) :
    Except DomainError (User × AppState) :=
  match get_by_email st.users user_data.email with
  | some _ => Except.error (DomainError.conflict "Email already registered")
  | none =>
    Except.ok (registered_user st user_data,
      { st with users := st.users ++ [registered_user st user_data],
                nextId := st.nextId + 1 })

/-- `AuthService.login` (`app/auth/service.py`): `PermissionDenied` with
message "Invalid credentials" when the email is unknown, `PermissionDenied`
with message "User account is inactive" when the account is inactive,
`PermissionDenied` with message "Invalid credentials" when the password
does not verify; otherwise an access token whose subject is the user id. -/
def login (st : AppState) (email password : String) :
    Except DomainError AccessToken :=
  match get_by_email st.users email with
  | none => Except.error (DomainError.permissionDenied "Invalid credentials")
  | some user =>
    if !user.is_active then
      Except.error (DomainError.permissionDenied "User account is inactive")
    else if !verify_password password user.hashed_password then
      Except.error (DomainError.permissionDenied "Invalid credentials")
    else
      Except.ok (create_access_token user.id)

/-- `AuthService.verify_email` (`app/auth/service.py`): `PermissionDenied`
when the token is invalid/expired/wrong-purpose, when no user matches the
embedded email, or when the token differs from the stored
`pending_verification_token`; then a no-op success when the user is
already active; otherwise set `is_active = True` and clear the pending
token. -/
def verify_email (st : AppState) (token : PurposeToken) :
    Except DomainError (Unit × AppState) :=
  match verify_email_verification_token token with
  | none =>
    Except.error (DomainError.permissionDenied "Invalid or expired email verification token")
  | some email_str =>
    match get_by_email st.users email_str with
    | none => Except.error (DomainError.permissionDenied "User not found")
    | some user =>
      if user.pending_verification_token ≠ some token then
        Except.error
          (DomainError.permissionDenied "Invalid or expired email verification token")
      else if user.is_active then
        Except.ok ((), st)
      else
        Except.ok ((),
          { st with
            users := update_user_by_id st.users user.id
              (fun u => { u with is_active := true,
                                 pending_verification_token := none }) })

/-- The state reached by a service call: the new state on success, the
unchanged starting state on a raised fault (the per-request transaction
rolls back). -/
def stateAfter {α : Type} (st : AppState) (r : Except DomainError (α × AppState)) :
    AppState :=
  match r with
  | Except.ok (_, st2) => st2
  | Except.error _ => st

/-- A membership mutation on a fixed workspace, as dispatched by the
workspace router to `WorkspaceService`. -/
inductive WsOp where
  | addMember (user_id : Nat) (role : WorkspaceRole) (adder_id : Nat)
  | updateRole (user_id : Nat) (role : WorkspaceRole) (updater_id : Nat)
  | removeMember (user_id : Nat)
  deriving DecidableEq

/-- The role an operation asks for (`none` for removal). -/
def WsOp.requestedRole : WsOp → Option WorkspaceRole
  | WsOp.addMember _ role _ => some role
  | WsOp.updateRole _ role _ => some role
  | WsOp.removeMember _ => none

/-- Run a membership operation against a workspace, keeping the starting
state when the service raises a fault. -/
def applyWsOp (st : AppState) (workspace_id : Nat) : WsOp → AppState
  | WsOp.addMember user_id role adder_id =>
    stateAfter st (add_member st workspace_id { user_id := user_id, role := role } adder_id)
  | WsOp.updateRole user_id role updater_id =>
    stateAfter st (update_member_role st workspace_id user_id role updater_id)
  | WsOp.removeMember user_id =>
    stateAfter st (remove_member st workspace_id user_id)

/-- Number of membership rows of the workspace whose role is OWNER. -/
def ownerCount (members : List Member) (workspace_id : Nat) : Nat :=
  members.countP (fun m => m.workspace_id == workspace_id && m.role == WorkspaceRole.owner)

namespace Api

/-- A row of the `users` table of the older `src/api/v1` variant
(`api/v1/models/user.py`): it additionally has a unique username, and
registration activates the account immediately (the "email verification
disabled" deployment mode). -/
structure User where
  id : Nat
  email : String
  username : String
  full_name : Option String := none
  hashed_password : String
  is_active : Bool
  is_superuser : Bool := false
  deriving DecidableEq

/-- The database visible to the older variant's auth service. -/
structure AuthState where
  users : List User
  nextId : Nat
  deriving DecidableEq

/-- `UserRepository.get_by_email` (`api/v1/repositories/user.py`). -/
def get_by_email (users : List User) (email : String) : Option User :=
  users.find? (fun u => u.email == email)

/-- `UserRepository.get_by_username` (`api/v1/repositories/user.py`). -/
def get_by_username (users : List User) (username : String) : Option User :=
  users.find? (fun u => u.username == username)

/-- `UserRepository.get_by_email_or_username` (`api/v1/repositories/user.py`). -/
def get_by_email_or_username (users : List User) (identifier : String) : Option User :=
  users.find? (fun u => u.email == identifier || u.username == identifier)

/-- `RegisterRequest` (`api/v1/schemas/auth.py`). -/
structure RegisterRequest where
  email : String
  username : String
  full_name : Option String := none
  password : String
  deriving DecidableEq

/-- The user row inserted by the older variant's `AuthService.register`
(`api/v1/services/auth.py`): `is_active = True` — no email-verification
gate exists in this variant — and the username lower-cased. -/
def registered_user (st : AuthState) (user_data : RegisterRequest) : User :=
  { id := st.nextId, email := user_data.email,
    username := str_lower user_data.username,
    full_name := user_data.full_name,
    hashed_password := get_password_hash user_data.password,
    is_active := true, is_superuser := false }

/-- `AuthService.register` (`api/v1/services/auth.py`): `Conflict` if email
or username taken; otherwise insert `registered_user`. -/
def register (st : AuthState) (user_data : RegisterRequest) :
    Except DomainError (User × AuthState) :=
  match get_by_email st.users user_data.email with
  | some _ => Except.error (DomainError.conflict "Email already registered")
  | none =>
    match get_by_username st.users user_data.username with
    | some _ => Except.error (DomainError.conflict "Username already taken")
    | none =>
      Except.ok (registered_user st user_data,
        { st with users := st.users ++ [registered_user st user_data],
                  nextId := st.nextId + 1 })

/-- `AuthService.login` (`api/v1/services/auth.py`): same failure ladder as
the `app` variant, with lookup by email or username. -/
def login (st : AuthState) (identifier password : String) :
    Except DomainError AccessToken :=
  match get_by_email_or_username st.users identifier with
  | none => Except.error (DomainError.permissionDenied "Invalid credentials")
  | some user =>
    if !user.is_active then
      Except.error (DomainError.permissionDenied "User account is inactive")
    else if !verify_password password user.hashed_password then
      Except.error (DomainError.permissionDenied "Invalid credentials")
    else
      Except.ok (create_access_token user.id)

end Api

/-! Helper lemmas about the repository-level list operations. -/

lemma get_member_append_of_none {members : List Member} {workspace_id user_id : Nat}
    (h : get_member members workspace_id user_id = none) (m : Member) :
    get_member (members ++ [m]) workspace_id user_id =
      if m.workspace_id == workspace_id && m.user_id == user_id then some m else none := by
  unfold get_member at h ⊢
  rw [List.find?_append, h]
  cases hp : (m.workspace_id == workspace_id && m.user_id == user_id) <;>
    simp [List.find?, hp]

lemma repo_update_member_role_of_not_member {members : List Member}
    {workspace_id user_id : Nat} (r : WorkspaceRole)
    (h : get_member members workspace_id user_id = none) :
    repo_update_member_role members workspace_id user_id r = (none, members) := by
  induction members with
  | nil => rfl
  | cons m rest ih =>
    unfold get_member at h ih
    rw [List.find?_cons] at h
    cases hp : (m.workspace_id == workspace_id && m.user_id == user_id) with
    | true => rw [hp] at h; exact absurd h (by simp)
    | false =>
      rw [hp] at h
      unfold repo_update_member_role
      rw [hp]
      simp [ih h]

lemma repo_remove_member_of_not_member {members : List Member}
    {workspace_id user_id : Nat}
    (h : get_member members workspace_id user_id = none) :
    repo_remove_member members workspace_id user_id = (false, members) := by
  induction members with
  | nil => rfl
  | cons m rest ih =>
    unfold get_member at h ih
    rw [List.find?_cons] at h
    cases hp : (m.workspace_id == workspace_id && m.user_id == user_id) with
    | true => rw [hp] at h; exact absurd h (by simp)
    | false =>
      rw [hp] at h
      unfold repo_remove_member
      rw [hp]
      simp [ih h]

lemma ownerCount_append (members : List Member) (m : Member) (workspace_id : Nat) :
    ownerCount (members ++ [m]) workspace_id =
      ownerCount members workspace_id +
        (if m.workspace_id == workspace_id && m.role == WorkspaceRole.owner then 1 else 0) := by
  simp [ownerCount, List.countP_append, List.countP_cons]

lemma ownerCount_update_of_ne_owner {members : List Member}
    {workspace_id user_id : Nat} {r : WorkspaceRole}
    (hr : r ≠ WorkspaceRole.owner)
    (hcur : get_user_role_in_workspace members workspace_id user_id ≠
      some WorkspaceRole.owner) :
    ownerCount (repo_update_member_role members workspace_id user_id r).2 workspace_id =
      ownerCount members workspace_id := by
  induction members with
  | nil => rfl
  | cons m rest ih =>
    unfold get_user_role_in_workspace get_member at hcur ih
    rw [List.find?_cons] at hcur
    cases hp : (m.workspace_id == workspace_id && m.user_id == user_id) with
    | true =>
      rw [hp] at hcur
      have hm : m.role ≠ WorkspaceRole.owner := by
        intro hro
        exact hcur (by simp [hro])
      unfold repo_update_member_role
      rw [hp]
      simp only [ownerCount, List.countP_cons]
      have hw : m.workspace_id == workspace_id := by
        cases hb : m.workspace_id == workspace_id <;> simp [hb] at hp ⊢
      simp [hr, hm, hw]
    | false =>
      rw [hp] at hcur
      unfold repo_update_member_role
      rw [hp]
      have := ih hcur
      simp only [ownerCount] at this
      simp [ownerCount, List.countP_cons, this]

lemma ownerCount_remove_of_ne_owner {members : List Member}
    {workspace_id user_id : Nat}
    (hcur : get_user_role_in_workspace members workspace_id user_id ≠
      some WorkspaceRole.owner) :
    ownerCount (repo_remove_member members workspace_id user_id).2 workspace_id =
      ownerCount members workspace_id := by
  induction members with
  | nil => rfl
  | cons m rest ih =>
    unfold get_user_role_in_workspace get_member at hcur ih
    rw [List.find?_cons] at hcur
    cases hp : (m.workspace_id == workspace_id && m.user_id == user_id) with
    | true =>
      rw [hp] at hcur
      have hm : m.role ≠ WorkspaceRole.owner := by
        intro hro
        exact hcur (by simp [hro])
      unfold repo_remove_member
      rw [hp]
      simp only [ownerCount, List.countP_cons]
      simp [hm]
    | false =>
      rw [hp] at hcur
      unfold repo_remove_member
      rw [hp]
      have := ih hcur
      simp only [ownerCount] at this
      simp [ownerCount, List.countP_cons, this]

lemma get_by_email_update_user_by_id {users : List User} {email : String} {v : User}
    (h : get_by_email users email = some v) (f : User → User)
    (hf : ∀ u, (f u).email = u.email) :
    get_by_email (update_user_by_id users v.id f) email = some (f v) := by
  induction users with
  | nil => simp [get_by_email] at h
  | cons u rest ih =>
    unfold get_by_email at h ih ⊢
    rw [List.find?_cons] at h
    unfold update_user_by_id at ih ⊢
    cases hp : (u.email == email) with
    | true =>
      rw [hp] at h
      have hv : u = v := by simpa using h
      subst hv
      simp only [List.map_cons]
      rw [List.find?_cons]
      have : ((if u.id == u.id then f u else u).email == email) = true := by
        simp [hf, hp]
      rw [this]
      simp
    | false =>
      rw [hp] at h
      simp only [List.map_cons]
      rw [List.find?_cons]
      have : ((if u.id == v.id then f u else u).email == email) = false := by
        cases hq : (u.id == v.id) <;> simp [hq, hf, hp]
      rw [this]
      exact ih h

/-! Concrete fixture data used by witnesses and counterexamples. -/

/-- Fixture: the workspace owner. -/
def exOwner : User :=
  { id := 1, email := "owner@x.com",
    hashed_password := get_password_hash "Abcd1234", is_active := true }

/-- Fixture: a user who is not a member of the workspace. -/
def exOutsider : User :=
  { id := 2, email := "out@x.com",
    hashed_password := get_password_hash "Abcd1234", is_active := true }

/-- Fixture: a plain MEMBER of the workspace. -/
def exPlainMember : User :=
  { id := 3, email := "plain@x.com",
    hashed_password := get_password_hash "Abcd1234", is_active := true }

/-- Fixture: a workspace with slug `team-a`. -/
def exWorkspace : Workspace :=
  { id := 10, name := "Team A", slug := "team-a" }

/-- Fixture: user 1 owns workspace 10, user 3 is a MEMBER, user 2 is not a
member. -/
def exState : AppState :=
  { users := [exOwner, exOutsider, exPlainMember],
    workspaces := [exWorkspace],
    members := [{ user_id := 1, workspace_id := 10, role := WorkspaceRole.owner },
                { user_id := 3, workspace_id := 10, role := WorkspaceRole.member }],
    nextId := 100 }

/-- C7: for every workspace whose member currently holds role OWNER,
`update_member_role` with any requested role other than OWNER fails with a
`Validation` fault ("Cannot change owner role") — not `Forbidden` — for
every updater, and the failed call leaves the state unchanged. -/
theorem update_owner_role_rejected (st : AppState)
    (workspace_id member_user_id updater_id : Nat) (role : WorkspaceRole)
    (howner : get_user_role_in_workspace st.members workspace_id member_user_id =
      some WorkspaceRole.owner)
    (hrole : role ≠ WorkspaceRole.owner) :
    update_member_role st workspace_id member_user_id role updater_id =
      Except.error (DomainError.validation "Cannot change owner role") ∧
    stateAfter st (update_member_role st workspace_id member_user_id role updater_id) =
      st := by
  have h1 : update_member_role st workspace_id member_user_id role updater_id =
      Except.error (DomainError.validation "Cannot change owner role") := by
    simp [update_member_role, howner, hrole]
  exact ⟨h1, by rw [h1]; rfl⟩

/-- Witness for C7 at a concrete state: demoting the owner of workspace 10
to MEMBER is rejected with the `Validation` fault. -/
theorem update_owner_role_rejected_witness :
    update_member_role exState 10 1 WorkspaceRole.member 2 =
      Except.error (DomainError.validation "Cannot change owner role") :=
  (update_owner_role_rejected exState 10 1 2 WorkspaceRole.member rfl (by decide)).1

/-- C8: `remove_member` fails with `Validation` ("Cannot remove workspace
owner") whenever the target membership's role is OWNER, regardless of the
caller (and the membership is not removed), and fails with `NotFound`
whenever no membership exists for the pair. -/
theorem remove_member_owner_or_missing (st : AppState)
    (workspace_id member_user_id : Nat) :
    (get_user_role_in_workspace st.members workspace_id member_user_id =
        some WorkspaceRole.owner →
      remove_member st workspace_id member_user_id =
        Except.error (DomainError.validation "Cannot remove workspace owner") ∧
      stateAfter st (remove_member st workspace_id member_user_id) = st) ∧
    (get_member st.members workspace_id member_user_id = none →
      remove_member st workspace_id member_user_id =
        Except.error (DomainError.notFound "Member not found in workspace")) := by
  constructor
  · intro h
    have h1 : remove_member st workspace_id member_user_id =
        Except.error (DomainError.validation "Cannot remove workspace owner") := by
      simp [remove_member, h]
    exact ⟨h1, by rw [h1]; rfl⟩
  · intro h
    have hrole : get_user_role_in_workspace st.members workspace_id member_user_id =
        none := by
      simp [get_user_role_in_workspace, h]
    have hrm := repo_remove_member_of_not_member h
    simp [remove_member, hrole, hrm]

/-- Witness for C8 at a concrete state: removing the owner is a
`Validation` fault; removing a non-member is a `NotFound` fault. -/
theorem remove_member_owner_or_missing_witness :
    remove_member exState 10 1 =
      Except.error (DomainError.validation "Cannot remove workspace owner") ∧
    remove_member exState 10 2 =
      Except.error (DomainError.notFound "Member not found in workspace") :=
  ⟨((remove_member_owner_or_missing exState 10 1).1 rfl).1,
   (remove_member_owner_or_missing exState 10 2).2 rfl⟩

/-- C9: for a user with no membership in an existing workspace,
`update_member_role` with requested role VIEWER, MEMBER or OWNER raises no
fault and creates no membership: it reports success with the state
unchanged (no `NotFound` is signalled). -/
theorem update_role_nonmember_silent_noop (st : AppState)
    (workspace_id user_id updater_id : Nat) (role : WorkspaceRole) (ws : Workspace)
    (hnm : get_member st.members workspace_id user_id = none)
    (hrole : role = WorkspaceRole.viewer ∨ role = WorkspaceRole.member ∨
      role = WorkspaceRole.owner)
    (hws : workspace_get_by_id st.workspaces workspace_id = some ws) :
    update_member_role st workspace_id user_id role updater_id = Except.ok (ws, st) := by
  have hr : get_user_role_in_workspace st.members workspace_id user_id = none := by
    simp [get_user_role_in_workspace, hnm]
  have hadmin : role ≠ WorkspaceRole.admin := by
    rcases hrole with h | h | h <;> simp [h]
  have hupd := repo_update_member_role_of_not_member role hnm
  simp [update_member_role, hr, hadmin, hupd, hws]

/-- Witness for C9 at a concrete state: updating the role of non-member
user 2 to OWNER reports success and leaves the state unchanged. -/
theorem update_role_nonmember_silent_noop_witness :
    update_member_role exState 10 2 WorkspaceRole.owner 1 =
      Except.ok (exWorkspace, exState) :=
  update_role_nonmember_silent_noop exState 10 2 1 WorkspaceRole.owner exWorkspace rfl
    (by decide) rfl

/-- C2 counterexample: with adder user 3 holding role MEMBER in workspace
10, `add_member(10, user 2, role=ADMIN, adder=3)` does not fail with a
`Validation` fault — it succeeds and creates the ADMIN membership. -/
theorem add_member_promotion_counterexample :
    get_user_role_in_workspace exState.members 10 3 = some WorkspaceRole.member ∧
    ∃ st2, add_member exState 10 { user_id := 2, role := WorkspaceRole.admin } 3 =
        Except.ok (exWorkspace, st2) ∧
      get_user_role_in_workspace st2.members 10 2 = some WorkspaceRole.admin :=
  ⟨rfl, _, rfl, rfl⟩

/-- C2 (amended): `add_member` performs no promotion check at all: whenever
the workspace and the target user exist and the target is not already a
member, the call succeeds for every requested role and every adder
(in particular a MEMBER adder requesting ADMIN), creating the membership
with the requested role; no `Validation` fault is raised. -/
theorem add_member_no_promotion_check (st : AppState) (workspace_id adder_id : Nat)
    (member_data : WorkspaceMemberCreate) (ws : Workspace) (target : User)
    (hws : workspace_get_by_id st.workspaces workspace_id = some ws)
    (huser : user_get_by_id st.users member_data.user_id = some target)
    (hnm : get_member st.members workspace_id member_data.user_id = none) :
    ∃ st2, add_member st workspace_id member_data adder_id = Except.ok (ws, st2) ∧
      get_user_role_in_workspace st2.members workspace_id member_data.user_id =
        some member_data.role := by
  have hmem : is_user_member st.members workspace_id member_data.user_id = false := by
    simp [is_user_member, hnm]
  refine ⟨{ st with
      members := repo_add_member st.members workspace_id member_data.user_id
        member_data.role ((user_get_by_id st.users adder_id).map (fun u => u.email)) },
    ?_, ?_⟩
  · simp [add_member, hws, huser, hmem]
  · have happ := get_member_append_of_none hnm
      ({ user_id := member_data.user_id, workspace_id := workspace_id,
         role := member_data.role, added_by_id := none } : Member)
    simp at happ
    simp [get_user_role_in_workspace, repo_add_member, happ]

/-- Witness for amended C2 at a concrete state: a MEMBER adder (user 3)
adds user 2 with role ADMIN and the call succeeds. -/
theorem add_member_no_promotion_check_witness :
    ∃ st2, add_member exState 10 { user_id := 2, role := WorkspaceRole.admin } 3 =
        Except.ok (exWorkspace, st2) ∧
      get_user_role_in_workspace st2.members 10 2 = some WorkspaceRole.admin :=
  add_member_no_promotion_check exState 10 3
    { user_id := 2, role := WorkspaceRole.admin } exWorkspace exOutsider rfl rfl rfl

/-- Fixture: a deactivated account. -/
def exInactiveUser : User :=
  { id := 7, email := "inactive@x.com",
    hashed_password := get_password_hash "Secret1A", is_active := false }

/-- Fixture: a user store containing only the deactivated account. -/
def exAuthState : AppState :=
  { users := [exInactiveUser], workspaces := [], members := [], nextId := 50 }

/-- C4 counterexample: the three login failure cases do not share one
single generic message — an unknown email yields "Invalid credentials"
while an inactive account yields the distinct "User account is inactive",
so two runs differing only in which failure case holds produce different
observable responses. -/
theorem login_messages_counterexample :
    login exAuthState "nobody@x.com" "Secret1A" =
      Except.error (DomainError.permissionDenied "Invalid credentials") ∧
    login exAuthState "inactive@x.com" "Secret1A" =
      Except.error (DomainError.permissionDenied "User account is inactive") ∧
    DomainError.permissionDenied "User account is inactive" ≠
      DomainError.permissionDenied "Invalid credentials" :=
  ⟨rfl, rfl, by decide⟩

/-- C4 (amended): `login` fails `PermissionDenied` with the one generic
"Invalid credentials" message both when the email is not found and when
the password mismatches (those two cases are externally
indistinguishable), but an inactive account fails with the distinct
message "User account is inactive"; on success it issues an access token
whose subject decodes to the user's id. -/
theorem login_cases (st : AppState) (email password : String) :
    (get_by_email st.users email = none →
      login st email password =
        Except.error (DomainError.permissionDenied "Invalid credentials")) ∧
    (∀ user, get_by_email st.users email = some user → user.is_active = false →
      login st email password =
        Except.error (DomainError.permissionDenied "User account is inactive")) ∧
    (∀ user, get_by_email st.users email = some user → user.is_active = true →
      verify_password password user.hashed_password = false →
      login st email password =
        Except.error (DomainError.permissionDenied "Invalid credentials")) ∧
    (∀ user, get_by_email st.users email = some user → user.is_active = true →
      verify_password password user.hashed_password = true →
      login st email password = Except.ok (create_access_token user.id) ∧
      decode_access_token (create_access_token user.id) = user.id) := by
  refine ⟨?_, ?_, ?_, ?_⟩
  · intro h
    simp [login, h]
  · intro user hu hi
    simp [login, hu, hi]
  · intro user hu hi hv
    simp [login, hu, hi, hv]
  · intro user hu hi hv
    exact ⟨by simp [login, hu, hi, hv], rfl⟩

/-- Witness for amended C4 at a concrete state: the unknown-email case and
the inactive-account case produce the stated faults. -/
theorem login_cases_witness :
    login exAuthState "nobody@x.com" "pw" =
      Except.error (DomainError.permissionDenied "Invalid credentials") ∧
    login exAuthState "inactive@x.com" "pw" =
      Except.error (DomainError.permissionDenied "User account is inactive") :=
  ⟨(login_cases exAuthState "nobody@x.com" "pw").1 rfl,
   (login_cases exAuthState "inactive@x.com" "pw").2.1 exInactiveUser rfl rfl⟩

/-- Fixture: an already-verified account whose pending verification token
has been cleared. -/
def exVerifiedUser : User :=
  { id := 8, email := "done@x.com",
    hashed_password := get_password_hash "Secret1A", is_active := true,
    pending_verification_token := none }

/-- Fixture: a user store containing only the verified account. -/
def exVerifyState : AppState :=
  { users := [exVerifiedUser], workspaces := [], members := [], nextId := 60 }

/-- Fixture: a valid verification token for the verified account's email
(for example the token consumed by the verification that activated it). -/
def exReplayToken : PurposeToken :=
  generate_email_verification_token "done@x.com"

/-- C3 counterexample: `verify_email` does not succeed as a no-op for every
already-active user — for an active user whose stored
`pending_verification_token` is cleared, a valid token for their email is
rejected with `PermissionDenied` instead of succeeding. -/
theorem verify_email_active_counterexample :
    (get_by_email exVerifyState.users "done@x.com").map User.is_active = some true ∧
    verify_email_verification_token exReplayToken = some "done@x.com" ∧
    verify_email exVerifyState exReplayToken =
      Except.error
        (DomainError.permissionDenied "Invalid or expired email verification token") :=
  ⟨rfl, rfl, rfl⟩

/-- C3 (amended): `verify_email(token)` raises `PermissionDenied` exactly
when the token is invalid/expired/wrong-purpose, when no user matches the
embedded email, or when the token differs from the user's stored
`pending_verification_token`; when all those checks pass it is a no-op
success for an already-active user, and for an inactive user it sets
`is_active = true` and clears `pending_verification_token`. -/
theorem verify_email_cases (st : AppState) (token : PurposeToken) :
    (verify_email_verification_token token = none →
      verify_email st token =
        Except.error
          (DomainError.permissionDenied "Invalid or expired email verification token")) ∧
    (∀ email, verify_email_verification_token token = some email →
      get_by_email st.users email = none →
      verify_email st token =
        Except.error (DomainError.permissionDenied "User not found")) ∧
    (∀ email user, verify_email_verification_token token = some email →
      get_by_email st.users email = some user →
      user.pending_verification_token ≠ some token →
      verify_email st token =
        Except.error
          (DomainError.permissionDenied "Invalid or expired email verification token")) ∧
    (∀ email user, verify_email_verification_token token = some email →
      get_by_email st.users email = some user →
      user.pending_verification_token = some token →
      user.is_active = true →
      verify_email st token = Except.ok ((), st)) ∧
    (∀ email user, verify_email_verification_token token = some email →
      get_by_email st.users email = some user →
      user.pending_verification_token = some token →
      user.is_active = false →
      ∃ st2, verify_email st token = Except.ok ((), st2) ∧
        get_by_email st2.users email =
          some { user with is_active := true,
                           pending_verification_token := none }) := by
  refine ⟨?_, ?_, ?_, ?_, ?_⟩
  · intro h
    simp [verify_email, h]
  · intro email h1 h2
    simp [verify_email, h1, h2]
  · intro email user h1 h2 h3
    simp only [verify_email, h1, h2]
    rw [if_pos h3]
  · intro email user h1 h2 h3 h4
    simp only [verify_email, h1, h2]
    rw [if_neg (by simp [h3])]
    simp [h4]
  · intro email user h1 h2 h3 h4
    refine ⟨{ st with
        users := update_user_by_id st.users user.id
          (fun u => { u with is_active := true,
                             pending_verification_token := none }) }, ?_, ?_⟩
    · simp only [verify_email, h1, h2]
      rw [if_neg (by simp [h3])]
      simp [h4]
    · exact get_by_email_update_user_by_id h2 _ (fun _ => rfl)

/-- Fixture: a freshly registered, not yet verified account with its
pending verification token stored. -/
def exPendingUser : User :=
  { id := 9, email := "new@x.com",
    hashed_password := get_password_hash "Secret1A", is_active := false,
    pending_verification_token := some (generate_email_verification_token "new@x.com") }

/-- Fixture: a user store containing only the pending account. -/
def exPendingState : AppState :=
  { users := [exPendingUser], workspaces := [], members := [], nextId := 70 }

/-- Witness for amended C3 at a concrete state: verifying the pending
account with its stored token succeeds and activates it, clearing the
pending token. -/
theorem verify_email_cases_witness :
    ∃ st2,
      verify_email exPendingState (generate_email_verification_token "new@x.com") =
        Except.ok ((), st2) ∧
      get_by_email st2.users "new@x.com" =
        some { exPendingUser with is_active := true,
                                  pending_verification_token := none } :=
  (verify_email_cases exPendingState
      (generate_email_verification_token "new@x.com")).2.2.2.2
    "new@x.com" exPendingUser rfl rfl rfl rfl

/-- Fixture: a one-workspace store whose stored slug is `team-a`. -/
def exSlugState : AppState :=
  { users := [], workspaces := [exWorkspace], members := [], nextId := 20 }

/-- C6 (code bug): the program does not implement the case-insensitive
slug conflict the claim describes.  The slug validator is never registered
(`@classmethod` sits above `@field_validator` in the schema, which
Pydantic v2 silently ignores), so `create_workspace` receives the raw
submitted slug and `is_slug_taken` compares it case-sensitively.  At the
failing input — stored slug `team-a`, submitted slug `Team-A` — the
validator, had it run, would have produced the taken slug `team-a`
(first two conjuncts), yet the call is not rejected as `Conflict`: it
succeeds and stores the raw, un-lowercased slug `Team-A` (third
conjunct). -/
theorem create_workspace_case_variant_not_conflict :
    validate_slug "Team-A" = Except.ok "team-a" ∧
    is_slug_taken exSlugState.workspaces "team-a" = true ∧
    create_workspace exSlugState
        { name := "Team A2", slug := "Team-A", description := none, is_active := true }
        1 =
      Except.ok
        ({ id := 20, name := "Team A2", slug := "Team-A" },
         { users := [],
           workspaces := [exWorkspace,
                          { id := 20, name := "Team A2", slug := "Team-A" }],
           members := [{ user_id := 1, workspace_id := 20,
                         role := WorkspaceRole.owner }],
           nextId := 21 }) :=
  ⟨rfl, rfl, rfl⟩

/-- Fixture: a deactivated user who is still a member row of workspace 10. -/
def exDeactivatedMember : User :=
  { id := 4, email := "gone@x.com",
    hashed_password := get_password_hash "Abcd1234", is_active := false }

/-- Fixture: workspace 10 with an active owner (user 1) and a deactivated
member (user 4). -/
def exJoinState : AppState :=
  { users := [exOwner, exDeactivatedMember],
    workspaces := [exWorkspace],
    members := [{ user_id := 1, workspace_id := 10, role := WorkspaceRole.owner },
                { user_id := 4, workspace_id := 10, role := WorkspaceRole.member }],
    nextId := 90 }

/-- C10: `get_workspace_with_member_details` returns exactly the
memberships of the workspace whose user both exists and is active — a
membership whose user is merely deactivated is silently excluded — and the
returned `member_count` always equals the length of the members list. -/
theorem get_workspace_members_active_join (st : AppState) (workspace_id : Nat)
    (ws : Workspace)
    (hws : workspace_get_by_id st.workspaces workspace_id = some ws) :
    ∃ d, get_workspace_with_member_details st workspace_id = Except.ok d ∧
      d.member_count = d.members.length ∧
      ∀ uid : Nat,
        ((∃ mu ∈ d.members, mu.user.id = uid) ↔
          ∃ m ∈ st.members, m.workspace_id = workspace_id ∧ m.user_id = uid ∧
            ∃ u, user_get_by_id st.users uid = some u ∧ u.is_active = true) := by
  have hok : get_workspace_with_member_details st workspace_id =
      Except.ok
        { id := ws.id, name := ws.name, slug := ws.slug,
          description := ws.description,
          member_count := ((get_workspace_members_with_users st workspace_id).map
            (fun mu =>
              ({ role := mu.1.role,
                 user := { id := mu.2.id, firstname := mu.2.firstname,
                           lastname := mu.2.lastname, email := mu.2.email } } :
                WorkspaceMemberOut))).length,
          members := (get_workspace_members_with_users st workspace_id).map
            (fun mu =>
              ({ role := mu.1.role,
                 user := { id := mu.2.id, firstname := mu.2.firstname,
                           lastname := mu.2.lastname, email := mu.2.email } } :
                WorkspaceMemberOut)) } := by
    unfold get_workspace_with_member_details
    rw [hws]
  refine ⟨_, hok, rfl, ?_⟩
  intro uid
  constructor
  · rintro ⟨mu, hmu, hid⟩
    obtain ⟨⟨m, u⟩, hmem, hF⟩ := List.mem_map.mp hmu
    obtain ⟨m', hmfil, hbind⟩ := List.mem_filterMap.mp hmem
    cases hu : user_get_by_id st.users m'.user_id with
    | none => rw [hu] at hbind; cases hbind
    | some u0 =>
      rw [hu] at hbind
      cases hact : u0.is_active with
      | false => simp [hact] at hbind
      | true =>
        simp only [Option.some_bind, hact, if_true, Option.some.injEq,
          Prod.mk.injEq] at hbind
        obtain ⟨hm', hu0⟩ := hbind
        have hmst := List.mem_filter.mp hmfil
        have hwid : m'.workspace_id = workspace_id := by simpa using hmst.2
        have huid_eq : u0.id = m'.user_id := by
          simpa using List.find?_some hu
        have hmuid : mu.user.id = u.id := by rw [← hF]
        have huid : m'.user_id = uid := by
          rw [← huid_eq, hu0, ← hmuid]
          exact hid
        refine ⟨m', hmst.1, hwid, huid, u0, ?_, hact⟩
        rw [← huid]
        exact hu
  · rintro ⟨m, hm, hwid, huid, u, hu, hact⟩
    have huid_eq : u.id = uid := by simpa using List.find?_some hu
    refine ⟨{ role := m.role,
              user := { id := u.id, firstname := u.firstname,
                        lastname := u.lastname, email := u.email } }, ?_, huid_eq⟩
    apply List.mem_map.mpr
    refine ⟨(m, u), ?_, rfl⟩
    apply List.mem_filterMap.mpr
    refine ⟨m, List.mem_filter.mpr ⟨hm, by simp [hwid]⟩, ?_⟩
    rw [huid, hu]
    simp [hact]

/-- Witness for C10 at a concrete state: the join over workspace 10, whose
member user 4 is deactivated, satisfies the characterization. -/
theorem get_workspace_members_active_join_witness :
    ∃ d, get_workspace_with_member_details exJoinState 10 = Except.ok d ∧
      d.member_count = d.members.length ∧
      ∀ uid : Nat,
        ((∃ mu ∈ d.members, mu.user.id = uid) ↔
          ∃ m ∈ exJoinState.members, m.workspace_id = 10 ∧ m.user_id = uid ∧
            ∃ u, user_get_by_id exJoinState.users uid = some u ∧ u.is_active = true) :=
  get_workspace_members_active_join exJoinState 10 exWorkspace rfl

lemma find_append_of_none {α : Type} {p : α → Bool} {l1 l2 : List α}
    (h : l1.find? p = none) : (l1 ++ l2).find? p = l2.find? p := by
  rw [List.find?_append, h]
  rfl

/-- C5: with email verification disabled (the `api/v1` variant),
registering a fresh email yields an `is_active = true` account and logging
in with that email and password returns an access token whose subject
decodes to the account's id; with verification enabled (the `app`
variant), the new account starts `is_active = false` and login fails
before `verify_email` succeeds. -/
theorem register_login_verification_modes :
    (∀ (st : Api.AuthState) (data : Api.RegisterRequest),
      Api.get_by_email_or_username st.users data.email = none →
      Api.get_by_username st.users data.username = none →
      ∃ user st2, Api.register st data = Except.ok (user, st2) ∧
        user.is_active = true ∧
        Api.login st2 data.email data.password =
          Except.ok (create_access_token user.id) ∧
        decode_access_token (create_access_token user.id) = user.id) ∧
    (∀ (st : AppState) (data : RegisterRequest),
      get_by_email st.users data.email = none →
      ∃ user st2, register st data = Except.ok (user, st2) ∧
        user.is_active = false ∧
        login st2 data.email data.password =
          Except.error (DomainError.permissionDenied "User account is inactive")) := by
  constructor
  · intro st data h_or hu
    have hemail : Api.get_by_email st.users data.email = none := by
      unfold Api.get_by_email
      unfold Api.get_by_email_or_username at h_or
      rw [List.find?_eq_none] at h_or ⊢
      intro x hx
      have hx2 := h_or x hx
      simp at hx2 ⊢
      exact hx2.1
    refine ⟨Api.registered_user st data,
      { st with users := st.users ++ [Api.registered_user st data],
                nextId := st.nextId + 1 },
      ?_, rfl, ?_, rfl⟩
    · simp [Api.register, hemail, hu]
    · have hfind : Api.get_by_email_or_username
          (st.users ++ [Api.registered_user st data]) data.email =
          some (Api.registered_user st data) := by
        unfold Api.get_by_email_or_username at h_or ⊢
        rw [find_append_of_none h_or]
        simp [List.find?, Api.registered_user]
      simp only [Api.login, hfind]
      simp [Api.registered_user, verify_password]
  · intro st data h
    refine ⟨registered_user st data,
      { st with users := st.users ++ [registered_user st data],
                nextId := st.nextId + 1 },
      ?_, rfl, ?_⟩
    · simp [register, h]
    · have hfind : get_by_email (st.users ++ [registered_user st data]) data.email =
          some (registered_user st data) := by
        unfold get_by_email at h ⊢
        rw [find_append_of_none h]
        simp [List.find?, registered_user]
      simp only [login, hfind]
      simp [registered_user]

/-- Fixture: an empty user store for the older (verification-disabled)
variant. -/
def exApiFreshState : Api.AuthState :=
  { users := [], nextId := 0 }

/-- Fixture: an empty store for the `app` (verification-enabled) variant. -/
def exAppFreshState : AppState :=
  { users := [], workspaces := [], members := [], nextId := 0 }

/-- Witness for C5 on concrete fresh stores: registration + login in the
disabled mode round-trips the id; in the enabled mode login fails while
the account is unverified. -/
theorem register_login_verification_modes_witness :
    (∃ user st2,
      Api.register exApiFreshState
          { email := "a@x.com", username := "Alice", password := "Abcd1234" } =
        Except.ok (user, st2) ∧
      user.is_active = true ∧
      Api.login st2 "a@x.com" "Abcd1234" = Except.ok (create_access_token user.id) ∧
      decode_access_token (create_access_token user.id) = user.id) ∧
    (∃ user st2,
      register exAppFreshState { email := "a@x.com", password := "Abcd1234" } =
        Except.ok (user, st2) ∧
      user.is_active = false ∧
      login st2 "a@x.com" "Abcd1234" =
        Except.error (DomainError.permissionDenied "User account is inactive")) :=
  ⟨register_login_verification_modes.1 exApiFreshState
      { email := "a@x.com", username := "Alice", password := "Abcd1234" } rfl rfl,
   register_login_verification_modes.2 exAppFreshState
      { email := "a@x.com", password := "Abcd1234" } rfl⟩

/-- C1 counterexample: after `create_workspace` the new workspace (id 100)
has exactly one OWNER membership, but a subsequent `add_member` requesting
role OWNER succeeds and yields two OWNER memberships, so the owner count
is not preserved by `add_member` with an arbitrary requested role. -/
theorem single_owner_counterexample :
    ownerCount (stateAfter exState
      (create_workspace exState { name := "Team B", slug := "team-b" } 1)).members
      100 = 1 ∧
    ownerCount (applyWsOp
      (stateAfter exState
        (create_workspace exState { name := "Team B", slug := "team-b" } 1)) 100
      (WsOp.addMember 2 WorkspaceRole.owner 1)).members 100 = 2 :=
  ⟨rfl, rfl⟩

/-- C1 (amended): after `create_workspace` (with a fresh workspace id)
exactly one membership of the new workspace has role OWNER, and the count
is preserved by `add_member` and `update_member_role` whenever the
requested role is not OWNER, and by `remove_member` always; a requested
role of OWNER is excluded because adding or updating to OWNER can create a
second owner. -/
theorem single_owner_amended :
    (∀ (st : AppState) (data : WorkspaceCreate) (owner_id : Nat) (ws : Workspace)
        (st2 : AppState),
      (∀ m ∈ st.members, m.workspace_id ≠ st.nextId) →
      create_workspace st data owner_id = Except.ok (ws, st2) →
      ownerCount st2.members ws.id = 1) ∧
    (∀ (st : AppState) (workspace_id : Nat) (op : WsOp),
      op.requestedRole ≠ some WorkspaceRole.owner →
      ownerCount st.members workspace_id = 1 →
      ownerCount (applyWsOp st workspace_id op).members workspace_id = 1) := by
  constructor
  · intro st data owner_id ws st2 hfresh hok
    unfold create_workspace at hok
    cases h2 : is_slug_taken st.workspaces data.slug with
    | true => simp [h2] at hok
    | false =>
      simp [h2] at hok
      obtain ⟨hws, hst2⟩ := hok
      have h0 : ownerCount st.members st.nextId = 0 := by
        apply List.countP_eq_zero.mpr
        intro m hm
        simp [hfresh m hm]
      rw [← hst2, ← hws]
      simp only [repo_add_member]
      rw [ownerCount_append, h0]
      simp
  · intro st workspace_id op hreq hone
    cases op with
    | addMember u r a =>
      have hr : r ≠ WorkspaceRole.owner := by
        intro h
        exact hreq (by simp [WsOp.requestedRole, h])
      cases hws : workspace_get_by_id st.workspaces workspace_id with
      | none =>
        simp [applyWsOp, add_member, hws, stateAfter]
        exact hone
      | some w =>
        cases huser : user_get_by_id st.users u with
        | none =>
          simp [applyWsOp, add_member, hws, huser, stateAfter]
          exact hone
        | some target =>
          cases hmem : is_user_member st.members workspace_id u with
          | true =>
            simp [applyWsOp, add_member, hws, huser, hmem, stateAfter]
            exact hone
          | false =>
            simp only [applyWsOp, add_member, hws, huser, hmem, Bool.false_eq_true,
              if_false, stateAfter]
            simp only [repo_add_member]
            rw [ownerCount_append]
            simp [hr]
            exact hone
    | updateRole u r upd =>
      have hr : r ≠ WorkspaceRole.owner := by
        intro h
        exact hreq (by simp [WsOp.requestedRole, h])
      by_cases hcur : get_user_role_in_workspace st.members workspace_id u =
          some WorkspaceRole.owner
      · have herr : update_member_role st workspace_id u r upd =
            Except.error (DomainError.validation "Cannot change owner role") := by
          simp [update_member_role, hcur, hr]
        simp only [applyWsOp, herr, stateAfter]
        exact hone
      · by_cases hadm : r = WorkspaceRole.admin ∧
            get_user_role_in_workspace st.members workspace_id upd ≠
              some WorkspaceRole.owner
        · have herr : update_member_role st workspace_id u r upd =
              Except.error
                (DomainError.validation "Only owner can promote members to admin") := by
            simp only [update_member_role]
            rw [if_neg (fun hc => hcur hc.1), if_pos hadm]
          simp only [applyWsOp, herr, stateAfter]
          exact hone
        · have hcount := @ownerCount_update_of_ne_owner st.members workspace_id u r hr hcur
          simp only [applyWsOp, update_member_role]
          rw [if_neg (fun hc => hcur hc.1), if_neg hadm]
          cases hws : workspace_get_by_id st.workspaces workspace_id with
          | none =>
            simp [hws, stateAfter]
            exact hone
          | some w =>
            simp [hws, stateAfter]
            exact hcount.trans hone
    | removeMember u =>
      by_cases hcur : get_user_role_in_workspace st.members workspace_id u =
          some WorkspaceRole.owner
      · have herr : remove_member st workspace_id u =
            Except.error (DomainError.validation "Cannot remove workspace owner") := by
          simp [remove_member, hcur]
        simp only [applyWsOp, herr, stateAfter]
        exact hone
      · have hcount := @ownerCount_remove_of_ne_owner st.members workspace_id u hcur
        simp only [applyWsOp, remove_member]
        rw [if_neg hcur]
        cases hpair : repo_remove_member st.members workspace_id u with
        | mk removed members2 =>
          rw [hpair] at hcount
          simp only [hpair]
          cases removed with
          | true =>
            simp [stateAfter]
            exact hcount.trans hone
          | false =>
            simp [stateAfter]
            exact hone

/-- Fixture: the workspace created from `exState` with slug `team-b` and
owner 5. -/
def exCreatedWs : Workspace :=
  { id := 100, name := "Team B", slug := "team-b" }

/-- Fixture: the state after creating `exCreatedWs` from `exState`. -/
def exCreatedState : AppState :=
  { users := [exOwner, exOutsider, exPlainMember],
    workspaces := [exWorkspace, exCreatedWs],
    members := [{ user_id := 1, workspace_id := 10, role := WorkspaceRole.owner },
                { user_id := 3, workspace_id := 10, role := WorkspaceRole.member },
                { user_id := 5, workspace_id := 100, role := WorkspaceRole.owner }],
    nextId := 101 }

/-- Witness for amended C1 at concrete states: creation establishes a
single owner, and an `add_member` with requested role MEMBER preserves
it. -/
theorem single_owner_amended_witness :
    ownerCount exCreatedState.members exCreatedWs.id = 1 ∧
    ownerCount (applyWsOp exState 10
      (WsOp.addMember 2 WorkspaceRole.member 1)).members 10 = 1 :=
  ⟨single_owner_amended.1 exState { name := "Team B", slug := "team-b" } 5
      exCreatedWs exCreatedState (by decide) rfl,
   single_owner_amended.2 exState 10 (WsOp.addMember 2 WorkspaceRole.member 1)
      (by decide) rfl⟩

end FastapiStarter
